import Mathlib

/-!
Shallow embedding of the Clairvox claim-verification core
(`backend/clairvox_analyzer.py` and `backend/clairvox_core.py`).

Python dictionaries carrying evidence records are modelled as structures in
which every key is present (possibly as the empty string), which is the shape
the pipeline itself produces.  Network calls (CrossRef / PubMed / arXiv
searches), the `re` regex engine and NLTK tokenisation are modelled as oracle
parameters: the surrounding control flow and arithmetic are embedded
faithfully from the source.
-/

namespace Clairvox

/-- Python `str.lower`: per-character lowering.  (`String.toLower` acts the
same way but is defined by position-based recursion that concrete instances
cannot evaluate, so the character-list form is used.) -/
def pyLower (s : String) : String := String.mk (s.data.map Char.toLower)

/-- Python `str.strip`: drop leading and trailing whitespace. -/
def pyStrip (s : String) : String :=
  String.mk
    (((s.data.dropWhile Char.isWhitespace).reverse.dropWhile
      Char.isWhitespace).reverse)

/-- Substring occurrence over character lists. -/
def charsContain (sub : List Char) : List Char → Bool
  | [] => sub.isEmpty
  | c :: rest => sub.isPrefixOf (c :: rest) || charsContain sub rest

/-- Python `sub in s` substring test on strings. -/
def strContains (s sub : String) : Bool :=
  charsContain sub.toList s.toList

/-- Python `any(k in s for k in keys)`. -/
def strContainsAny (s : String) (keys : List String) : Bool :=
  keys.any (fun k => strContains s k)

/-- An evidence record (a Python dict with the keys the pipeline reads). -/
structure Evidence where
  type : String := ""
  venue : String := ""
  url : String := ""
  doi : String := ""
  title : String := ""
  partial_support : Bool := false
deriving DecidableEq

/-! ## EvidenceWeightedConfidence (clairvox_analyzer.py) -/

/-- Venue keywords marking a human peer-reviewed study in
`calculate_confidence_score`. -/
def humanVenueKeywords : List String :=
  ["journal", "nature", "science", "cell", "lancet", "nejm", "plos", "bmj",
   "pubmed", "crossref"]

/-- The per-record branch of the evidence loop in `calculate_confidence_score`:
`True` when the record counts as a human peer-reviewed study. -/
def isHumanPeerReviewed (e : Evidence) : Bool :=
  e.type == "peer-reviewed" && strContainsAny (pyLower e.venue) humanVenueKeywords

/-- Weight added to `weighted_support` for one evidence record. -/
def evidenceWeight (e : Evidence) : Int :=
  if isHumanPeerReviewed e then 30 else 15

/-- Driver line appended for one evidence record. -/
def evidenceDriver (e : Evidence) : String :=
  if isHumanPeerReviewed e then
    "human peer-reviewed study found (doi: " ++ e.doi ++ ")"
  else
    "preclinical/mechanistic study found (doi: " ++ e.doi ++ ")"

/-- `weighted_support` accumulated by the evidence loop. -/
def weightedSupport (evidence_list : List Evidence) : Int :=
  (evidence_list.map evidenceWeight).sum

/-- `weighted_contradiction`: `min(contradiction_count * 10, 40)` when there is
at least one contradiction, `0` otherwise. -/
def contradictionPenalty (contradictions : List Evidence) : Int :=
  if contradictions.length > 0 then
    min ((contradictions.length : Int) * 10) 40
  else 0

/-- The qualitative driver line selected by the final score band. -/
def scoreBandDriver (score : Int) (evidence_list : List Evidence) : String :=
  if score == 0 then
    if evidence_list.isEmpty then "no credible evidence found"
    else "strong contradictions override supporting evidence"
  else if score < 30 then "very weak or contradicted evidence"
  else if score < 50 then
    "limited evidence with significant gaps or contradictions"
  else if score < 70 then
    "mixed evidence with some supporting sources but limited confidence"
  else if score < 90 then
    "good evidence but not yet fully established or lacks peer review"
  else
    "strong primary evidence with peer-reviewed sources and replications"

/-- `EvidenceWeightedConfidence.calculate_confidence_score`.  Python `round`
on an `int` is the identity, so no rounding step appears on `Int`. -/
def calculate_confidence_score (evidence_list contradictions : List Evidence) :
    Int × List String :=
  let support := weightedSupport evidence_list
  let evDrivers := evidence_list.map evidenceDriver
  let penalty := contradictionPenalty contradictions
  let contraDrivers :=
    if contradictions.length > 0 then
      ["contradicted by " ++ toString contradictions.length ++ " source(s)"]
    else []
  let raw_score := support - penalty
  let confidence_score := max 0 (min 100 raw_score)
  let drivers :=
    evDrivers ++ contraDrivers ++ [scoreBandDriver confidence_score evidence_list]
  (confidence_score, drivers.take 3)

/-- `EvidenceWeightedConfidence.get_confidence_color`. -/
def get_confidence_color (score : Int) : String :=
  if score == 0 then "red"
  else if score ≤ 30 then "orange"
  else if score ≤ 70 then "yellow"
  else "green"

/-! ## DomainRuleEngine (clairvox_core.py) -/

/-- One entry of a `violations` list built by the domain rule checkers. -/
structure Violation where
  rule : String
  description : String
  severity : String
deriving DecidableEq

/-- The result dict of one `_check_*_rules` function. -/
structure DomainResult where
  domain : String
  violations : List Violation
  isPlausibleFlag : Bool
deriving DecidableEq

/-- Regex patterns of `_check_physics_rules`. -/
def physicsPatterns : List String :=
  ["perpetual.*motion.*machine", "energy.*from.*nothing",
   "faster.*than.*light.*travel", "instantaneous.*information.*transfer",
   "violates.*conservation.*of.*energy", "breaks.*thermodynamics"]

/-- Regex patterns of `_check_neuroscience_rules`. -/
def neurosciencePatterns : List String :=
  ["instantaneous.*memory.*transfer", "telepathic.*communication",
   "reading.*minds.*directly", "consciousness.*upload.*without.*technology"]

/-- Regex patterns of `_check_statistics_rules`. -/
def statisticsPatterns : List String :=
  ["correlation.*greater.*than.*1", "probability.*greater.*than.*1",
   "negative.*variance", "standard.*deviation.*negative"]

/-- Shared shape of the three `_check_*_rules` functions: one critical
violation is appended per pattern that `re.search` (the oracle `reSearch`)
finds in the lower-cased claim; `is_plausible` is `len(violations) == 0`. -/
def checkDomainRules (reSearch : String → String → Bool)
    (domain : String) (patterns : List String) (rule desc : String)
    (claim : String) : DomainResult :=
  let violations :=
    (patterns.filter (fun p => reSearch p (pyLower claim))).map
      (fun _ => Violation.mk rule desc "critical")
  DomainResult.mk domain violations violations.isEmpty

/-- `_check_physics_rules`. -/
def check_physics_rules (reSearch : String → String → Bool) (claim : String) :
    DomainResult :=
  checkDomainRules reSearch "physics" physicsPatterns
    "fundamental_physics_violation" "Claim violates fundamental physical laws"
    claim

/-- `_check_neuroscience_rules`. -/
def check_neuroscience_rules (reSearch : String → String → Bool)
    (claim : String) : DomainResult :=
  checkDomainRules reSearch "neuroscience" neurosciencePatterns
    "neuroscience_impossibility" "Claim violates known neuroscience principles"
    claim

/-- `_check_statistics_rules`. -/
def check_statistics_rules (reSearch : String → String → Bool)
    (claim : String) : DomainResult :=
  checkDomainRules reSearch "statistics" statisticsPatterns
    "statistical_impossibility"
    "Claim violates fundamental statistical principles" claim

/-- The dict returned by `DomainRuleEngine.check_claim_plausibility`
(`overall_plausible`, `critical_violations`, `domain_results`). -/
structure PlausibilityResult where
  overallPlausibleFlag : Bool
  critical_violations : Bool
  domain_results : List (String × DomainResult)
deriving DecidableEq

/-- `DomainRuleEngine.check_claim_plausibility`. -/
def check_claim_plausibility (reSearch : String → String → Bool)
    (claim : String) : PlausibilityResult :=
  let results : List (String × DomainResult) :=
    [("physics", check_physics_rules reSearch claim),
     ("neuroscience", check_neuroscience_rules reSearch claim),
     ("statistics", check_statistics_rules reSearch claim)]
  let allPlausibleFlag := results.all (fun r => r.2.isPlausibleFlag)
  let critical_violations :=
    results.any (fun r => r.2.violations.any (fun v => v.severity == "critical"))
  PlausibilityResult.mk (allPlausibleFlag && !critical_violations)
    critical_violations results

/-- `EvidenceWeightedConfidence.get_classification`. -/
def get_classification (score : Int) (fabricated_terms : List String)
    (plausibility_result : PlausibilityResult)
    (evidence_list : List Evidence) : String :=
  if !fabricated_terms.isEmpty || !plausibility_result.overallPlausibleFlag then
    if !fabricated_terms.isEmpty then "Fabricated" else "Physically Implausible"
  else
    let peer_reviewed_count :=
      (evidence_list.filter (fun e => e.type == "peer-reviewed")).length
    if score ≥ 90 ∧ peer_reviewed_count ≥ 1 then "Fully Supported"
    else if score ≥ 50 then "Partially Supported"
    else "Unsupported"

/-! ## FabricatedTermDetector (clairvox_core.py)

The three database searches (`search_crossref`, `search_pubmed`,
`search_arxiv`) are network calls; they are modelled as oracle functions from
a query string and a result cap to the returned record list. -/

/-- The network and text-processing collaborators of the pipeline, modelled
as oracles: `reSearch pattern text` models `re.search(pattern, text)`;
`findTerms` models the `re.findall` extraction of capitalized technical
terms; the three `search*` functions model the bibliographic database
clients; `searchComprehensive` models
`DatabaseSearcher.search_evidence_comprehensive`. -/
structure Oracles where
  reSearch : String → String → Bool
  findTerms : String → List String
  search_crossref : String → Nat → List Evidence
  search_pubmed : String → Nat → List Evidence
  search_arxiv : String → Nat → List Evidence
  searchComprehensive : String → Nat → List Evidence

/-- A double-quote character, used to build phrase queries. -/
def dq : String := "\""

/-- Wrap a string in double quotes (Python `f-string` with quotes). -/
def quoted (s : String) : String := dq ++ s ++ dq

/-- `FabricatedTermDetector.normalize_term`: lower-case, strip, then drop
every character outside `\w` and `\s`. -/
def normalize_term (term : String) : String :=
  String.mk ((pyStrip (pyLower term)).toList.filter
    (fun c => c.isAlphanum || c == '_' || c.isWhitespace))

/-- `FabricatedTermDetector.fuzzy_search`: the original term followed by
every single-position vowel substitution that changes the string, capped at
10 variations.  (The `max_distance` parameter of the source is computed but
never used.) -/
def fuzzy_search (term : String) : List String :=
  let cs := term.toList
  let subs :=
    (List.range cs.length).flatMap (fun i =>
      (['a', 'e', 'i', 'o', 'u'].filter (fun ch => cs.get? i != some ch)).map
        (fun ch => String.mk (cs.set i ch)))
  (term :: subs).take 10

/-- The three per-database exact-hit counts of `search_term_existence`. -/
structure SearchCounts where
  crossref : Nat
  pubmed : Nat
  arxiv : Nat
deriving DecidableEq

/-- Sum of the three per-database counts (`sum(results.values())`). -/
def SearchCounts.total (c : SearchCounts) : Nat :=
  c.crossref + c.pubmed + c.arxiv

/-- The dict returned by `FabricatedTermDetector.search_term_existence`. -/
structure TermSearchResult where
  term : String
  normalized_term : String
  exact_search_results : SearchCounts
  fuzzy_search_results : List (String × SearchCounts)
  total_exact_hits : Nat
  total_fuzzy_hits : Nat
deriving DecidableEq

/-- `FabricatedTermDetector.search_term_existence`. -/
def search_term_existence (o : Oracles) (term : String) : TermSearchResult :=
  let normalized_term := normalize_term term
  let exact_results : SearchCounts :=
    SearchCounts.mk (o.search_crossref (quoted normalized_term) 5).length
      (o.search_pubmed (quoted normalized_term) 5).length
      (o.search_arxiv (quoted normalized_term) 5).length
  let fuzzy_results : List (String × SearchCounts) :=
    if exact_results.total == 0 then
      ((fuzzy_search normalized_term).take 3).map (fun v =>
        (v, SearchCounts.mk (o.search_crossref (quoted v) 3).length
          (o.search_pubmed (quoted v) 3).length
          (o.search_arxiv (quoted v) 3).length))
    else []
  TermSearchResult.mk term normalized_term exact_results fuzzy_results
    exact_results.total
    ((fuzzy_results.map (fun v => v.2.total)).sum)

/-- One entry of the list returned by `detect_fabricated_terms`. -/
structure FabricationFinding where
  term : String
  search_evidence : TermSearchResult
  confidence : String
deriving DecidableEq

/-- The common capitalized words excluded from the candidate list in
`detect_fabricated_terms`. -/
def commonWords : List String :=
  ["The", "This", "That", "These", "Those", "A", "An", "And", "Or", "But",
   "In", "On", "At", "To", "For", "Of", "With", "By"]

/-- The candidate technical terms of `detect_fabricated_terms`: the
`re.findall` extraction (oracle) minus the common-word stoplist. -/
def candidate_terms (o : Oracles) (text : String) : List String :=
  (o.findTerms text).filter (fun term => ¬ commonWords.contains term)

/-- `FabricatedTermDetector.detect_fabricated_terms`. -/
def detect_fabricated_terms (o : Oracles) (text : String) :
    List FabricationFinding :=
  (candidate_terms o text).filterMap (fun term =>
    let search_result := search_term_existence o term
    if search_result.total_exact_hits == 0 ∧
        search_result.total_fuzzy_hits == 0 then
      some (FabricationFinding.mk term search_result
        (if term.length > 5 then "high" else "medium"))
    else none)

/-! ## ConceptBasedQueryGenerator (clairvox_core.py)

NLTK tokenisation, stop-word filtering, lemmatisation and WordNet synonym
lookup are external collaborators, modelled as oracles; the query assembly
itself is embedded from the source. -/

/-- The NLTK-backed collaborators of `ConceptBasedQueryGenerator`:
`extractConcepts` models `extract_key_concepts` (tokenise, drop stop words,
lemmatise, drop short words, deduplicate via `set`), `getSynonyms` models
`get_synonyms` (WordNet plus the MeSH table), and `wordTokenize` models
`nltk.word_tokenize`. -/
structure NlpOracles where
  extractConcepts : String → List String
  getSynonyms : String → List String
  wordTokenize : String → List String

/-- The `paraphrase_patterns` table of `_load_paraphrase_patterns`. -/
def paraphrase_patterns : List (String × List String) :=
  [("causes", ["leads to", "results in", "induces", "triggers", "promotes"]),
   ("prevents", ["reduces", "decreases", "inhibits", "blocks",
     "protects against"]),
   ("improves", ["enhances", "boosts", "increases", "strengthens",
     "optimizes"]),
   ("effective", ["beneficial", "helpful", "successful", "useful",
     "valuable"]),
   ("study", ["research", "investigation", "trial", "experiment",
     "analysis"]),
   ("shows", ["demonstrates", "indicates", "suggests", "reveals", "finds"])]

/-- `ConceptBasedQueryGenerator.generate_paraphrased_queries`. -/
def generate_paraphrased_queries (claim : String) : List String :=
  paraphrase_patterns.flatMap (fun pat =>
    if strContains (pyLower claim) pat.1 then
      pat.2.map (fun alternative => (pyLower claim).replace pat.1 alternative)
    else [])

/-- Python `str.split()`: split on whitespace runs, dropping empty pieces. -/
def pySplit (s : String) : List String :=
  (s.split Char.isWhitespace).filter (fun w => w ≠ "")

/-- `ConceptBasedQueryGenerator._extract_phrases`: all 2–4 word windows over
the token list, kept when they still split into ≥ 2 words, capped at 5. -/
def extract_phrases (nlp : NlpOracles) (text : String) : List String :=
  let words := nlp.wordTokenize (pyLower text)
  let phrases :=
    (List.range (words.length - 1)).flatMap (fun i =>
      ((List.range' (i + 2) (min (i + 5) (words.length + 1) - (i + 2))).map
        (fun j => " ".intercalate ((words.drop i).take (j - i)))).filter
        (fun phrase => (pySplit phrase).length ≥ 2))
  phrases.take 5

/-- The synonym-expansion query built for one concept. -/
def conceptQuery (nlp : NlpOracles) (concept : String) : String :=
  let synonyms := (nlp.getSynonyms concept).take 5
  if ¬ synonyms.isEmpty then
    quoted concept ++ " OR " ++
      " OR ".intercalate (synonyms.map quoted)
  else quoted concept

/-- `ConceptBasedQueryGenerator.generate_concept_queries`. -/
def generate_concept_queries (nlp : NlpOracles) (claim : String) :
    List String :=
  let concepts := nlp.extractConcepts claim
  let queries :=
    [quoted claim] ++
    ((generate_paraphrased_queries claim).take 3).map quoted ++
    (concepts.take 5).map (conceptQuery nlp) ++
    (if concepts.length ≥ 2 then
      (List.range (concepts.length - 1)).map (fun i =>
        quoted (concepts.getD i "") ++ " AND " ++
          quoted (concepts.getD (i + 1) ""))
    else []) ++
    (extract_phrases nlp claim).map quoted
  queries.take 12

/-! ## DatabaseSearcher._deduplicate_evidence_comprehensive -/

/-- Add a key to a seen-set unless it is empty (the `if doi:` guards of the
accept branch). -/
def addKey (s : String) (seen : List String) : List String :=
  if s != "" then s :: seen else seen

/-- The `is_duplicate` elif chain of
`_deduplicate_evidence_comprehensive`, over the lower-cased keys. -/
def codeDup (seenD seenT seenU : List String) (e : Evidence) : Bool :=
  let doi := pyLower e.doi
  let title := pyLower e.title
  let url := pyLower e.url
  (doi != "" && seenD.contains doi) ||
    (title != "" && seenT.contains title) ||
    (url != "" && seenU.contains url)

/-- The record loop of `_deduplicate_evidence_comprehensive`, carrying the
`seen_dois`, `seen_titles` and `seen_urls` sets. -/
def dedupAux (seenD seenT seenU : List String) :
    List Evidence → List Evidence
  | [] => []
  | e :: rest =>
    if codeDup seenD seenT seenU e then dedupAux seenD seenT seenU rest
    else
      e :: dedupAux (addKey (pyLower e.doi) seenD) (addKey (pyLower e.title) seenT)
        (addKey (pyLower e.url) seenU) rest

/-- `DatabaseSearcher._deduplicate_evidence_comprehensive`. -/
def deduplicate_evidence_comprehensive (evidence_list : List Evidence) :
    List Evidence :=
  dedupAux [] [] [] evidence_list

/-- Modelled from the spec sentence for the comprehensive deduplicator: a
record is dropped exactly when any of its non-empty keys (DOI, title, URL),
compared case-insensitively, equals the corresponding key of a previously
accepted record.  A key is non-empty exactly when its case-folded form is,
so non-emptiness is checked on the case-folded key. -/
def specDup (accepted : List Evidence) (e : Evidence) : Bool :=
  accepted.any (fun a =>
    (pyLower e.doi != "" && pyLower a.doi == pyLower e.doi) ||
      (pyLower e.title != "" && pyLower a.title == pyLower e.title) ||
      (pyLower e.url != "" && pyLower a.url == pyLower e.url))

/-- Modelled from the spec sentence: one deduplication pass keeping the first
occurrence in input order, accumulating the accepted records. -/
def dedupSpecAux (accepted : List Evidence) :
    List Evidence → List Evidence
  | [] => []
  | e :: rest =>
    if specDup accepted e then dedupSpecAux accepted rest
    else e :: dedupSpecAux (accepted ++ [e]) rest

/-- Modelled from the spec sentence: the comprehensive deduplication pass as
the spec words it. -/
def dedupSpec (evidence_list : List Evidence) : List Evidence :=
  dedupSpecAux [] evidence_list

/-! ## ClairvoxAnalyzer (clairvox_analyzer.py) -/

/-- `ClairvoxAnalyzer._deduplicate_evidence` (the simple, title-keyed pass
used on comprehensive search output). -/
def deduplicate_evidence : List String → List Evidence → List Evidence
  | _, [] => []
  | seen_titles, e :: rest =>
    let title := pyLower e.title
    if title != "" && !seen_titles.contains title then
      e :: deduplicate_evidence (title :: seen_titles) rest
    else deduplicate_evidence seen_titles rest

/-- `ClairvoxAnalyzer.search_evidence`. -/
def search_evidence (o : Oracles) (claim : String)
    (max_results_per_db : Nat := 5) : List Evidence :=
  deduplicate_evidence [] (o.searchComprehensive claim max_results_per_db)

/-- A single-quote character, used by Python f-strings in the source. -/
def sq : String := "\x27"

/-- `ClairvoxAnalyzer.search_contradictions`. -/
def search_contradictions (o : Oracles) (claim : String) : List Evidence :=
  let contradiction_queries :=
    [quoted claim ++ " AND " ++ quoted "not supported",
     quoted claim ++ " AND " ++ quoted "debunked",
     quoted claim ++ " AND " ++ quoted "disproven",
     quoted claim ++ " AND " ++ quoted "no evidence"]
  contradiction_queries.flatMap (fun query => o.search_crossref query 2)

/-- `ClairvoxAnalyzer.check_replication_status`. -/
def check_replication_status (evidence_list : List Evidence) : String :=
  if evidence_list.isEmpty then "none"
  else
    let replication_keywords :=
      ["replication", "reproducibility", "independent study"]
    let replication_count :=
      (evidence_list.filter (fun e =>
        replication_keywords.any (fun keyword =>
          strContains (pyLower e.title) keyword ||
            strContains (pyLower e.venue) keyword))).length
    if replication_count == 0 then "original_only"
    else if replication_count == 1 then "partial"
    else "replicated"

/-- `ClairvoxAnalyzer._generate_explanation`.  (Record fields are always
present in this model, so the `dict.get` defaults of the source never
fire.) -/
def generate_explanation (classification : String) (score : Int)
    (fabricated_terms : List String)
    (plausibility_result : PlausibilityResult)
    (evidence_list contradictions : List Evidence) : String :=
  if ¬ fabricated_terms.isEmpty then
    "No peer-reviewed or credible evidence found for fabricated terms: " ++
      ", ".intercalate fabricated_terms ++
      ". Related real literature may exist but does not support these specific claims."
  else if !plausibility_result.overallPlausibleFlag then
    "Claim violates established physical laws or domain-specific rules. No credible evidence can support physically impossible claims."
  else if classification == "Fully Supported" then
    let peer_reviewed_count :=
      (evidence_list.filter (fun e => e.type == "peer-reviewed")).length
    let preprint_count :=
      (evidence_list.filter (fun e => e.type == "preprint")).length
    let explanation :=
      "Strong evidence with confidence score " ++ toString score ++ ". " ++
      (if peer_reviewed_count > 0 then
        toString peer_reviewed_count ++
          " peer-reviewed source(s) directly confirm this claim. "
      else "") ++
      (if preprint_count > 0 then
        toString preprint_count ++ " preprint(s) provide additional support. "
      else "")
    match evidence_list with
    | [] => explanation
    | top_source :: _ =>
      explanation ++ "Key evidence: " ++ top_source.title ++ " (" ++
        top_source.venue ++ ")"
  else if classification == "Partially Supported" then
    let peer_reviewed_count :=
      (evidence_list.filter (fun e => e.type == "peer-reviewed")).length
    let preprint_count :=
      (evidence_list.filter (fun e => e.type == "preprint")).length
    let contradiction_count := contradictions.length
    let partial_support_count :=
      (evidence_list.filter (fun e => e.partial_support)).length
    let explanation :=
      "Mixed evidence with confidence score " ++ toString score ++ ". " ++
      (if peer_reviewed_count > 0 then
        toString peer_reviewed_count ++
          " peer-reviewed source(s) provide some support, "
      else "") ++
      (if preprint_count > 0 then
        toString preprint_count ++ " preprint(s) suggest preliminary evidence, "
      else "") ++
      (if partial_support_count > 0 then
        toString partial_support_count ++ " source(s) support core mechanisms, "
      else "") ++
      (if contradiction_count > 0 then
        "but " ++ toString contradiction_count ++
          " contradictory source(s) exist. "
      else "")
    (match evidence_list with
    | [] => explanation
    | top_source :: _ =>
      explanation ++ " Supporting evidence includes: " ++ top_source.title ++
        " (" ++ top_source.venue ++ ")") ++
      " Additional research needed for definitive conclusions."
  else
    if score == 0 then
      "No credible evidence found for this claim. The claim may be unsupported or require additional research."
    else
      match evidence_list with
      | top_source :: _ =>
        "Very weak evidence with confidence score " ++ toString score ++
          ". Limited supporting sources found: " ++ top_source.title ++
          " (" ++ top_source.venue ++ "). Additional research needed."
      | [] =>
        "Very weak evidence with confidence score " ++ toString score ++
          ". No relevant sources found. Additional research needed."

/-- `ClairvoxAnalyzer._generate_suggested_corrections`. -/
def generate_suggested_corrections (classification : String)
    (fabricated_terms : List String)
    (plausibility_result : PlausibilityResult) : String :=
  if ¬ fabricated_terms.isEmpty then
    "Remove fabricated terms: " ++ ", ".intercalate fabricated_terms ++
      ". Consider related real research areas: optogenetics, memory research, neuroscience studies."
  else if !plausibility_result.overallPlausibleFlag then
    "Revise claim to align with established scientific principles. Consider consulting domain experts for accurate information."
  else if classification == "Unsupported" then
    "Provide specific citations and evidence sources. Consider revising claim to be more conservative and evidence-based."
  else
    "Claim appears to be well-supported by available evidence."

/-- A value stored in the result dict assembled by `analyze_claim`. -/
inductive Val where
  | vStr (s : String)
  | vInt (n : Int)
  | vStrList (l : List String)
  | vEvidenceList (l : List Evidence)
  | vDomainResults (l : List (String × DomainResult))
  | vSearchResults (l : List TermSearchResult)
  | vNone
deriving DecidableEq

/-- The claim dict handed to `analyze_claim`. -/
structure ClaimData where
  original_claim : String
  normalized_claim : String

/-- `ClairvoxAnalyzer.analyze_claim`: the result dict is modelled as the
ordered list of its key/value pairs, one list literal per return statement of
the source. -/
def analyze_claim (o : Oracles) (claim_data : ClaimData) :
    List (String × Val) :=
  let original_claim := claim_data.original_claim
  let normalized_claim := claim_data.normalized_claim
  let plausibility_result := check_claim_plausibility o.reSearch original_claim
  if !plausibility_result.overallPlausibleFlag &&
      plausibility_result.critical_violations then
    [("original_claim", .vStr original_claim),
     ("normalized_claim", .vStr normalized_claim),
     ("classification", .vStr "Physically Implausible"),
     ("confidence_score", .vInt 0),
     ("confidence_color", .vStr "red"),
     ("drivers", .vStrList
       ["Claim violates established physical laws or domain-specific rules"]),
     ("top_evidence", .vEvidenceList []),
     ("fabricated_terms", .vStrList []),
     ("replication_status", .vStr "none"),
     ("contradictions", .vEvidenceList []),
     ("explanation_plain", .vStr
       "Claim violates established physical laws or domain-specific rules. No credible evidence can support physically impossible claims."),
     ("suggested_corrections", .vStr
       "Revise claim to align with established scientific principles. Consider consulting domain experts for accurate information."),
     ("search_actions", .vStr
       "Domain-rule validation short-circuited search due to physical impossibility"),
     ("domain_violations", .vDomainResults plausibility_result.domain_results)]
  else
    let fabricated_terms := detect_fabricated_terms o original_claim
    let fabricated_term_names := fabricated_terms.map (fun ft => ft.term)
    if ¬ fabricated_term_names.isEmpty then
      [("original_claim", .vStr original_claim),
       ("normalized_claim", .vStr normalized_claim),
       ("classification", .vStr "Fabricated"),
       ("confidence_score", .vInt 0),
       ("confidence_color", .vStr "red"),
       ("drivers", .vStrList
         ["Fabricated terms detected: " ++
           ", ".intercalate fabricated_term_names]),
       ("top_evidence", .vEvidenceList []),
       ("fabricated_terms", .vStrList fabricated_term_names),
       ("replication_status", .vStr "none"),
       ("contradictions", .vEvidenceList []),
       ("explanation_plain", .vStr
         ("No peer-reviewed or credible evidence found for fabricated terms: " ++
           ", ".intercalate fabricated_term_names ++
           ". Related real literature may exist but does not support these specific claims.")),
       ("suggested_corrections", .vStr
         ("Remove fabricated terms: " ++
           ", ".intercalate fabricated_term_names ++
           ". Consider related real research areas: optogenetics, memory research, neuroscience studies.")),
       ("search_actions", .vStr
         ("Searched CrossRef, PubMed, arXiv for fabricated terms: " ++
           ", ".intercalate fabricated_term_names ++
           ". All returned zero hits.")),
       ("fabricated_term_evidence", .vSearchResults
         (fabricated_terms.map (fun ft => ft.search_evidence)))]
    else
      let evidence_list := search_evidence o normalized_claim
      let contradictions := search_contradictions o normalized_claim
      let scored := calculate_confidence_score evidence_list contradictions
      let confidence_score := scored.1
      let drivers := scored.2
      let classification := get_classification confidence_score
        fabricated_term_names plausibility_result evidence_list
      let confidence_color := get_confidence_color confidence_score
      let replication_status := check_replication_status evidence_list
      let explanation := generate_explanation classification confidence_score
        fabricated_term_names plausibility_result evidence_list contradictions
      let suggested_corrections := generate_suggested_corrections
        classification fabricated_term_names plausibility_result
      let search_actions :=
        "Searched CrossRef, PubMed, arXiv for " ++ sq ++ normalized_claim ++
          sq ++ ". Contradiction search: " ++ toString contradictions.length ++
          " queries. Domain-rule validation: passed."
      [("original_claim", .vStr original_claim),
       ("normalized_claim", .vStr normalized_claim),
       ("classification", .vStr classification),
       ("confidence_score", .vInt confidence_score),
       ("confidence_color", .vStr confidence_color),
       ("drivers", .vStrList drivers),
       ("top_evidence", .vEvidenceList (evidence_list.take 5)),
       ("fabricated_terms", .vStrList fabricated_term_names),
       ("replication_status", .vStr replication_status),
       ("contradictions", .vEvidenceList contradictions),
       ("explanation_plain", .vStr explanation),
       ("suggested_corrections", .vStr suggested_corrections),
       ("search_actions", .vStr search_actions),
       ("domain_violations",
         if !plausibility_result.overallPlausibleFlag then
           .vDomainResults plausibility_result.domain_results
         else .vNone),
       ("partial_support_count", .vInt
         ((evidence_list.filter (fun e => e.partial_support)).length : Int))]

/-! ## Theorems -/

/-- The support total accumulated from the evidence loop is non-negative:
every record contributes 30 or 15. -/
lemma weightedSupport_nonneg (evidence_list : List Evidence) :
    0 ≤ weightedSupport evidence_list := by
  unfold weightedSupport
  induction evidence_list with
  | nil => simp
  | cons e rest ih =>
    simp only [List.map_cons, List.sum_cons]
    have : 0 ≤ evidenceWeight e := by
      unfold evidenceWeight; split <;> norm_num
    omega

/-- The confidence score is the clamp of support minus penalty. -/
lemma calculate_confidence_score_fst (evidence_list contradictions :
    List Evidence) :
    (calculate_confidence_score evidence_list contradictions).1 =
      max 0 (min 100 (weightedSupport evidence_list -
        contradictionPenalty contradictions)) := rfl

/-- C2: for every list of evidence records and every list of contradiction
records, `calculate_confidence_score` returns an integer confidence score
with `0 <= score <= 100`. -/
theorem confidence_score_in_range (evidence_list contradictions :
    List Evidence) :
    0 ≤ (calculate_confidence_score evidence_list contradictions).1 ∧
      (calculate_confidence_score evidence_list contradictions).1 ≤ 100 := by
  rw [calculate_confidence_score_fst]
  omega

/-- C5: `get_confidence_color` maps a score of 0 to "red", scores 1 through
30 to "orange", scores 31 through 70 to "yellow", and scores 71 through 100
to "green", for every integer score in [0,100]. -/
theorem confidence_color_bands (score : Int) (h0 : 0 ≤ score)
    (h100 : score ≤ 100) :
    (score = 0 → get_confidence_color score = "red") ∧
    (1 ≤ score → score ≤ 30 → get_confidence_color score = "orange") ∧
    (31 ≤ score → score ≤ 70 → get_confidence_color score = "yellow") ∧
    (71 ≤ score → score ≤ 100 → get_confidence_color score = "green") := by
  unfold get_confidence_color
  refine ⟨fun h => ?_, fun h1 h2 => ?_, fun h1 h2 => ?_, fun h1 h2 => ?_⟩ <;>
    split_ifs <;>
    simp_all <;> omega

/-- Witness for C5 at concrete scores in each band. -/
theorem confidence_color_bands_witness :
    get_confidence_color 0 = "red" ∧ get_confidence_color 30 = "orange" ∧
      get_confidence_color 31 = "yellow" ∧ get_confidence_color 100 = "green" :=
  ⟨(confidence_color_bands 0 (by norm_num) (by norm_num)).1 rfl,
   (confidence_color_bands 30 (by norm_num) (by norm_num)).2.1 (by norm_num)
     (by norm_num),
   (confidence_color_bands 31 (by norm_num) (by norm_num)).2.2.1 (by norm_num)
     (by norm_num),
   (confidence_color_bands 100 (by norm_num) (by norm_num)).2.2.2 (by norm_num)
     (by norm_num)⟩

/-- C10: `get_confidence_color` is total over all integers, always returns
one of the four colors, returns "orange" on every strictly negative score,
and returns "red" exactly on score 0. -/
theorem confidence_color_total (score : Int) :
    (get_confidence_color score = "red" ∨
      get_confidence_color score = "orange" ∨
      get_confidence_color score = "yellow" ∨
      get_confidence_color score = "green") ∧
    (score < 0 → get_confidence_color score = "orange") ∧
    (get_confidence_color score = "red" ↔ score = 0) := by
  unfold get_confidence_color
  split_ifs <;> simp_all <;> omega

/-- Witness for C10 at a strictly negative score. -/
theorem confidence_color_total_witness :
    get_confidence_color (-5) = "orange" :=
  (confidence_color_total (-5)).2.1 (by norm_num)

/-- A peer-reviewed journal record carrying the high-trust weight. -/
def journalRecord : Evidence :=
  { type := "peer-reviewed", venue := "Nature Journal" }

/-- A record with every field left at its empty default. -/
def blankRecord : Evidence := {}

/-- Counterexample to C4 as stated: with four high-trust records the support
total is 120, so one contradiction (penalty 10) still clamps to the 100
ceiling — the score neither strictly decreases nor sits at the 0 floor. -/
theorem contradiction_decreases_score_counterexample :
    ¬ ((calculate_confidence_score (List.replicate 4 journalRecord)
          ([] ++ [blankRecord])).1 <
        (calculate_confidence_score (List.replicate 4 journalRecord) []).1 ∨
      ((calculate_confidence_score (List.replicate 4 journalRecord)
          ([] ++ [blankRecord])).1 =
        (calculate_confidence_score (List.replicate 4 journalRecord) []).1 ∧
        (calculate_confidence_score (List.replicate 4 journalRecord)
          ([] ++ [blankRecord])).1 = 0)) := by decide

/-- C4 (amended): adding one contradiction to an otherwise-fixed evidence
set strictly decreases the score versus zero contradictions, or leaves it
equal with the resulting score at the 0 floor or at the 100 ceiling. -/
theorem contradiction_decreases_score (evidence_list contradictions :
    List Evidence) (c : Evidence) :
    (calculate_confidence_score evidence_list (contradictions ++ [c])).1 <
      (calculate_confidence_score evidence_list []).1 ∨
    ((calculate_confidence_score evidence_list (contradictions ++ [c])).1 =
        (calculate_confidence_score evidence_list []).1 ∧
      ((calculate_confidence_score evidence_list
          (contradictions ++ [c])).1 = 0 ∨
        (calculate_confidence_score evidence_list
          (contradictions ++ [c])).1 = 100)) := by
  have hs := weightedSupport_nonneg evidence_list
  rw [calculate_confidence_score_fst, calculate_confidence_score_fst]
  have hp1 : contradictionPenalty (contradictions ++ [c]) =
      min (((contradictions.length + 1 : Nat) : Int) * 10) 40 := by
    unfold contradictionPenalty
    simp
  have hp0 : contradictionPenalty [] = 0 := rfl
  rw [hp0, hp1]
  omega

/-- Mapping preserves list emptiness. -/
lemma isEmpty_map {α β : Type} (f : α → β) (l : List α) :
    (l.map f).isEmpty = l.isEmpty := by
  cases l <;> rfl

/-- In every domain result, the violation list consists solely of critical
violations, so "some critical violation" is "the list is non-empty". -/
lemma map_const_any_critical (l : List String) (rule desc : String) :
    (l.map (fun _ => Violation.mk rule desc "critical")).any
      (fun v => v.severity == "critical") = !l.isEmpty := by
  induction l with
  | nil => rfl
  | cons a t ih => simp_all

/-- The domain engine's aggregate: `overall_plausible` is the negation of
`critical_violations`, because every fired rule is critical. -/
lemma overall_eq_not_critical (reS : String → String → Bool)
    (claim : String) :
    (check_claim_plausibility reS claim).overallPlausibleFlag =
      !(check_claim_plausibility reS claim).critical_violations := by
  simp only [check_claim_plausibility, check_physics_rules,
    check_neuroscience_rules, check_statistics_rules, checkDomainRules,
    List.all_cons, List.all_nil, List.any_cons, List.any_nil,
    map_const_any_critical, isEmpty_map]
  generalize (physicsPatterns.filter fun p => reS p (pyLower claim)).isEmpty = a
  generalize
    (neurosciencePatterns.filter fun p => reS p (pyLower claim)).isEmpty = b
  generalize
    (statisticsPatterns.filter fun p => reS p (pyLower claim)).isEmpty = c
  cases a <;> cases b <;> cases c <;> rfl

/-- C3: on a plausibility result produced by the domain engine,
`get_classification` returns the first matching label in priority order:
Fabricated, Physically Implausible (critical domain violation), Fully
Supported (score ≥ 90 and a peer-reviewed record present), Partially
Supported (score ≥ 50), Unsupported. -/
theorem classification_priority (reS : String → String → Bool)
    (claim : String) (score : Int) (fabricated_terms : List String)
    (evidence_list : List Evidence) :
    get_classification score fabricated_terms
        (check_claim_plausibility reS claim) evidence_list =
      if fabricated_terms ≠ [] then "Fabricated"
      else if (check_claim_plausibility reS claim).critical_violations then
        "Physically Implausible"
      else if score ≥ 90 ∧
          evidence_list.any (fun e => e.type == "peer-reviewed") then
        "Fully Supported"
      else if score ≥ 50 then "Partially Supported"
      else "Unsupported" := by
  have h := overall_eq_not_critical reS claim
  unfold get_classification
  rw [h]
  have hcount :
      (1 ≤ (evidence_list.filter
          (fun e => e.type == "peer-reviewed")).length) ↔
        evidence_list.any (fun e => e.type == "peer-reviewed") = true := by
    simp [List.any_eq_true, Nat.one_le_iff_ne_zero, ← List.length_pos,
      List.length_pos_iff_exists_mem]
  by_cases hf : fabricated_terms = []
  · subst hf
    cases hc : (check_claim_plausibility reS claim).critical_violations <;>
      simp [hcount]
  · have : ¬ fabricated_terms.isEmpty := by
      simpa [List.isEmpty_iff] using hf
    simp [this, hf]

/-- C7: for every claim text (and any behaviour of the NLTK collaborators),
the query list returned by `generate_concept_queries` has length at most 12
and its first element is the verbatim claim as a phrase query. -/
theorem concept_queries_bounded (nlp : NlpOracles) (claim : String) :
    (generate_concept_queries nlp claim).length ≤ 12 ∧
      (generate_concept_queries nlp claim).head? = some (quoted claim) := by
  constructor
  · simp only [generate_concept_queries, List.length_take]
    omega
  · simp [generate_concept_queries, List.take_cons]

/-- C8: a candidate technical term appears in the output of
`detect_fabricated_terms` exactly when its total exact hit count and total
fuzzy hit count across all sources are both zero, and each reported finding
carries confidence "high" when the term is longer than 5 characters and
"medium" otherwise. -/
theorem fabricated_terms_iff (o : Oracles) (text : String) :
    (∀ term : String,
      (∃ f ∈ detect_fabricated_terms o text, f.term = term) ↔
        term ∈ candidate_terms o text ∧
          (search_term_existence o term).total_exact_hits = 0 ∧
          (search_term_existence o term).total_fuzzy_hits = 0) ∧
    (∀ f ∈ detect_fabricated_terms o text,
      f.confidence = if f.term.length > 5 then "high" else "medium") := by
  constructor
  · intro term
    constructor
    · rintro ⟨f, hf, rfl⟩
      simp only [detect_fabricated_terms, List.mem_filterMap] at hf
      obtain ⟨t, ht, heq⟩ := hf
      split at heq
      · rename_i h
        injection heq with h2
        subst h2
        exact ⟨ht, by simpa using h.1, by simpa using h.2⟩
      · cases heq
    · rintro ⟨hc, he, hf⟩
      refine ⟨FabricationFinding.mk term (search_term_existence o term)
        (if term.length > 5 then "high" else "medium"), ?_, rfl⟩
      simp only [detect_fabricated_terms, List.mem_filterMap]
      refine ⟨term, hc, ?_⟩
      rw [if_pos ⟨by simp [he], by simp [hf]⟩]
  · intro f hf
    simp only [detect_fabricated_terms, List.mem_filterMap] at hf
    obtain ⟨t, ht, heq⟩ := hf
    split at heq
    · injection heq with h2
      subst h2
      rfl
    · cases heq

/-- Oracles under which every database search returns no records and the
term extractor reports one invented compound term. -/
def fabricationOracles : Oracles :=
  { reSearch := fun _ _ => false,
    findTerms := fun _ => ["Neuroquantum"],
    search_crossref := fun _ _ => [],
    search_pubmed := fun _ _ => [],
    search_arxiv := fun _ _ => [],
    searchComprehensive := fun _ _ => [] }

/-- Witness for C8: with zero hits everywhere, the invented term
"Neuroquantum" is reported, and every finding carries the stated
confidence. -/
theorem fabricated_terms_iff_witness :
    (∃ f ∈ detect_fabricated_terms fabricationOracles "x",
      f.term = "Neuroquantum") ∧
    ∀ f ∈ detect_fabricated_terms fabricationOracles "x",
      f.confidence = if f.term.length > 5 then "high" else "medium" :=
  ⟨((fabricated_terms_iff fabricationOracles "x").1 "Neuroquantum").mpr
    ⟨by decide, by decide, by decide⟩,
   (fabricated_terms_iff fabricationOracles "x").2⟩

/-- Re-running the comprehensive dedup loop over its own output, from the
same seen-sets, changes nothing: every kept record was accepted against
exactly the keys that precede it. -/
lemma dedupAux_idem (l : List Evidence) : ∀ D T U,
    dedupAux D T U (dedupAux D T U l) = dedupAux D T U l := by
  induction l with
  | nil => intro D T U; rfl
  | cons e rest ih =>
    intro D T U
    cases h : codeDup D T U e
    · simp only [dedupAux, h, Bool.false_eq_true, if_false]
      rw [ih]
    · simp only [dedupAux, h, if_true]
      exact ih D T U

/-- Extending a seen-set by one accepted record preserves the invariant that
the seen-set holds exactly the non-empty case-folded keys of the accepted
records. -/
lemma addKey_invariant (f : Evidence → String) (e : Evidence)
    (S : List String) (acc : List Evidence)
    (hS : ∀ x, x ∈ S ↔ x ≠ "" ∧ ∃ a ∈ acc, pyLower (f a) = x) :
    ∀ x, x ∈ addKey (pyLower (f e)) S ↔
      x ≠ "" ∧ ∃ a ∈ acc ++ [e], pyLower (f a) = x := by
  intro x
  unfold addKey
  by_cases hs : pyLower (f e) = ""
  · rw [if_neg (by simp [hs]), hS x]
    constructor
    · rintro ⟨hx, a, ha, hax⟩
      exact ⟨hx, a, by simp [ha], hax⟩
    · rintro ⟨hx, a, ha, hax⟩
      rcases List.mem_append.mp ha with ha | ha
      · exact ⟨hx, a, ha, hax⟩
      · rw [List.mem_singleton.mp ha] at hax
        exact absurd (hax ▸ hs) hx
  · rw [if_pos (by simp [hs])]
    constructor
    · intro hx
      rcases List.mem_cons.mp hx with hx | hx
      · exact ⟨hx ▸ hs, e, by simp, hx.symm⟩
      · obtain ⟨hne, a, ha, hax⟩ := (hS x).mp hx
        exact ⟨hne, a, by simp [ha], hax⟩
    · rintro ⟨hx, a, ha, hax⟩
      rcases List.mem_append.mp ha with ha | ha
      · exact List.mem_cons_of_mem _ ((hS x).mpr ⟨hx, a, ha, hax⟩)
      · rw [List.mem_singleton.mp ha] at hax
        exact hax ▸ List.mem_cons_self _ _

/-- Under the seen-set invariants, the code's duplicate test agrees with the
spec's previously-accepted-record test. -/
lemma codeDup_eq_specDup (e : Evidence) (D T U : List String)
    (acc : List Evidence)
    (hD : ∀ x, x ∈ D ↔ x ≠ "" ∧ ∃ a ∈ acc, pyLower a.doi = x)
    (hT : ∀ x, x ∈ T ↔ x ≠ "" ∧ ∃ a ∈ acc, pyLower a.title = x)
    (hU : ∀ x, x ∈ U ↔ x ≠ "" ∧ ∃ a ∈ acc, pyLower a.url = x) :
    codeDup D T U e = specDup acc e := by
  have hiff : (codeDup D T U e = true) ↔ (specDup acc e = true) := by
    simp only [codeDup, specDup, Bool.or_eq_true, Bool.and_eq_true,
      List.any_eq_true, bne_iff_ne, ne_eq, beq_iff_eq, List.contains,
      List.elem_iff]
    constructor
    · rintro ((⟨hne, hmem⟩ | ⟨hne, hmem⟩) | ⟨hne, hmem⟩)
      · obtain ⟨-, a, ha, hax⟩ := (hD _).mp hmem
        exact ⟨a, ha, Or.inl (Or.inl ⟨hne, hax⟩)⟩
      · obtain ⟨-, a, ha, hax⟩ := (hT _).mp hmem
        exact ⟨a, ha, Or.inl (Or.inr ⟨hne, hax⟩)⟩
      · obtain ⟨-, a, ha, hax⟩ := (hU _).mp hmem
        exact ⟨a, ha, Or.inr ⟨hne, hax⟩⟩
    · rintro ⟨a, ha, (⟨hne, heq⟩ | ⟨hne, heq⟩) | ⟨hne, heq⟩⟩
      · exact Or.inl (Or.inl ⟨hne, (hD _).mpr ⟨hne, a, ha, heq⟩⟩)
      · exact Or.inl (Or.inr ⟨hne, (hT _).mpr ⟨hne, a, ha, heq⟩⟩)
      · exact Or.inr ⟨hne, (hU _).mpr ⟨hne, a, ha, heq⟩⟩
  cases hc : codeDup D T U e <;> cases hs : specDup acc e <;> simp_all

/-- The code's dedup loop equals the spec-worded one whenever the seen-sets
hold exactly the non-empty case-folded keys of the accepted records. -/
lemma dedupAux_eq_spec (l : List Evidence) : ∀ D T U acc,
    (∀ x, x ∈ D ↔ x ≠ "" ∧ ∃ a ∈ acc, pyLower a.doi = x) →
    (∀ x, x ∈ T ↔ x ≠ "" ∧ ∃ a ∈ acc, pyLower a.title = x) →
    (∀ x, x ∈ U ↔ x ≠ "" ∧ ∃ a ∈ acc, pyLower a.url = x) →
    dedupAux D T U l = dedupSpecAux acc l := by
  induction l with
  | nil => intros; rfl
  | cons e rest ih =>
    intro D T U acc hD hT hU
    have hdup := codeDup_eq_specDup e D T U acc hD hT hU
    cases hs : specDup acc e
    · simp only [dedupAux, dedupSpecAux, hdup, hs, Bool.false_eq_true,
        if_false]
      rw [ih _ _ _ (acc ++ [e])
        (addKey_invariant (fun a => a.doi) e D acc hD)
        (addKey_invariant (fun a => a.title) e T acc hT)
        (addKey_invariant (fun a => a.url) e U acc hU)]
    · simp only [dedupAux, dedupSpecAux, hdup, hs, if_true]
      exact ih _ _ _ acc hD hT hU

/-- C6: comprehensive deduplication is idempotent, and one pass drops a
record exactly when a non-empty key (DOI, title or URL), compared
case-insensitively, matches a previously accepted record's corresponding
key, first occurrence kept in input order (the spec-worded pass
`dedupSpec`). -/
theorem dedup_idempotent_and_first_kept (l : List Evidence) :
    deduplicate_evidence_comprehensive (deduplicate_evidence_comprehensive l)
        = deduplicate_evidence_comprehensive l ∧
      deduplicate_evidence_comprehensive l = dedupSpec l := by
  constructor
  · exact dedupAux_idem l [] [] []
  · exact dedupAux_eq_spec l [] [] [] [] (by simp) (by simp) (by simp)

/-- The thirteen field names shared by every return statement of
`analyze_claim`, in source order. -/
def commonResultFields : List String :=
  ["original_claim", "normalized_claim", "classification",
   "confidence_score", "confidence_color", "drivers", "top_evidence",
   "fabricated_terms", "replication_status", "contradictions",
   "explanation_plain", "suggested_corrections", "search_actions"]

/-- Field names of the physically-implausible short-circuit result. -/
def implausibleKeys : List String :=
  commonResultFields ++ ["domain_violations"]

/-- Field names of the fabricated-terms short-circuit result. -/
def fabricatedKeys : List String :=
  commonResultFields ++ ["fabricated_term_evidence"]

/-- Field names of the full-pipeline result. -/
def normalKeys : List String :=
  commonResultFields ++ ["domain_violations", "partial_support_count"]

/-- When the domain engine reports a critical violation, `analyze_claim`
returns the implausible short-circuit record. -/
lemma analyze_claim_critical_case (o : Oracles) (cd : ClaimData)
    (h : (check_claim_plausibility o.reSearch
      cd.original_claim).critical_violations = true) :
    (analyze_claim o cd).lookup "classification" =
        some (.vStr "Physically Implausible") ∧
      (analyze_claim o cd).lookup "confidence_score" = some (.vInt 0) ∧
      (analyze_claim o cd).lookup "fabricated_terms" =
        some (.vStrList []) ∧
      (analyze_claim o cd).map Prod.fst = implausibleKeys := by
  have hoc := overall_eq_not_critical o.reSearch cd.original_claim
  simp only [analyze_claim]
  rw [hoc, h]
  exact ⟨rfl, rfl, rfl, rfl⟩

/-- With no critical violation but a non-empty fabrication-finding list,
`analyze_claim` returns the fabricated short-circuit record. -/
lemma analyze_claim_fabricated_case (o : Oracles) (cd : ClaimData)
    (h : (check_claim_plausibility o.reSearch
      cd.original_claim).critical_violations = false)
    (f : FabricationFinding) (fs : List FabricationFinding)
    (hdet : detect_fabricated_terms o cd.original_claim = f :: fs) :
    (analyze_claim o cd).lookup "classification" =
        some (.vStr "Fabricated") ∧
      (analyze_claim o cd).lookup "confidence_score" = some (.vInt 0) ∧
      (analyze_claim o cd).lookup "fabricated_terms" =
        some (.vStrList ((f :: fs).map (fun ft => ft.term))) ∧
      (analyze_claim o cd).map Prod.fst = fabricatedKeys := by
  have hoc := overall_eq_not_critical o.reSearch cd.original_claim
  simp only [analyze_claim]
  rw [hoc, h, hdet]
  exact ⟨rfl, rfl, rfl, rfl⟩

/-- With no critical violation and no fabrication findings, `analyze_claim`
runs the full pipeline; its `fabricated_terms` field is empty. -/
lemma analyze_claim_normal_case (o : Oracles) (cd : ClaimData)
    (h : (check_claim_plausibility o.reSearch
      cd.original_claim).critical_violations = false)
    (hdet : detect_fabricated_terms o cd.original_claim = []) :
    (analyze_claim o cd).lookup "fabricated_terms" =
        some (.vStrList []) ∧
      (analyze_claim o cd).map Prod.fst = normalKeys := by
  have hoc := overall_eq_not_critical o.reSearch cd.original_claim
  simp only [analyze_claim]
  rw [hoc, h, hdet]
  exact ⟨rfl, rfl⟩

/-- C1: any result of `analyze_claim` with non-empty `fabricated_terms` has
confidence 0 and classification "Fabricated"; a critical domain violation
yields confidence 0 and classification "Physically Implausible"; the
domain-rule check runs first, so a claim triggering both never produces the
fabricated result. -/
theorem short_circuit_invariants (o : Oracles) (cd : ClaimData) :
    (∀ l : List String,
      (analyze_claim o cd).lookup "fabricated_terms" =
          some (.vStrList l) → l ≠ [] →
        (analyze_claim o cd).lookup "confidence_score" = some (.vInt 0) ∧
          (analyze_claim o cd).lookup "classification" =
            some (.vStr "Fabricated")) ∧
    ((check_claim_plausibility o.reSearch
        cd.original_claim).critical_violations = true →
      (analyze_claim o cd).lookup "confidence_score" = some (.vInt 0) ∧
        (analyze_claim o cd).lookup "classification" =
          some (.vStr "Physically Implausible")) ∧
    ((check_claim_plausibility o.reSearch
        cd.original_claim).critical_violations = true →
      (analyze_claim o cd).lookup "classification" ≠
        some (.vStr "Fabricated")) := by
  cases hcrit : (check_claim_plausibility o.reSearch
    cd.original_claim).critical_violations
  · cases hdet : detect_fabricated_terms o cd.original_claim with
    | nil =>
      obtain ⟨hfab, -⟩ := analyze_claim_normal_case o cd hcrit hdet
      refine ⟨?_, ?_, ?_⟩
      · intro l hl hne
        rw [hfab] at hl
        injection hl with h2
        injection h2 with h3
        exact absurd h3.symm hne
      · intro hc; exact absurd hc (by decide)
      · intro hc; exact absurd hc (by decide)
    | cons f fs =>
      obtain ⟨hcls, hconf, -, -⟩ :=
        analyze_claim_fabricated_case o cd hcrit f fs hdet
      refine ⟨fun _ _ _ => ⟨hconf, hcls⟩, ?_, ?_⟩
      · intro hc; exact absurd hc (by decide)
      · intro hc; exact absurd hc (by decide)
  · obtain ⟨hcls, hconf, hfab, -⟩ := analyze_claim_critical_case o cd hcrit
    refine ⟨?_, fun _ => ⟨hconf, hcls⟩, fun _ => ?_⟩
    · intro l hl hne
      rw [hfab] at hl
      injection hl with h2
      injection h2 with h3
      exact absurd h3.symm hne
    · rw [hcls]
      intro hcontra
      injection hcontra with h2
      injection h2 with h3
      exact absurd h3 (by decide)

/-- Oracles under which every claim matches every domain rule pattern and no
technical terms are extracted. -/
def criticalOracles : Oracles :=
  { reSearch := fun _ _ => true,
    findTerms := fun _ => [],
    search_crossref := fun _ _ => [],
    search_pubmed := fun _ _ => [],
    search_arxiv := fun _ _ => [],
    searchComprehensive := fun _ _ => [] }

/-- Witness for C1: one concrete fabricated-terms run and one concrete
critical-violation run, with the conclusions obtained from the theorem. -/
theorem short_circuit_invariants_witness :
    ((analyze_claim fabricationOracles ⟨"x", "x"⟩).lookup "confidence_score" =
        some (.vInt 0) ∧
      (analyze_claim fabricationOracles ⟨"x", "x"⟩).lookup "classification" =
        some (.vStr "Fabricated")) ∧
    ((analyze_claim criticalOracles ⟨"y", "y"⟩).lookup "confidence_score" =
        some (.vInt 0) ∧
      (analyze_claim criticalOracles ⟨"y", "y"⟩).lookup "classification" =
        some (.vStr "Physically Implausible")) ∧
    (analyze_claim criticalOracles ⟨"y", "y"⟩).lookup "classification" ≠
      some (.vStr "Fabricated") :=
  ⟨(short_circuit_invariants fabricationOracles ⟨"x", "x"⟩).1
      ["Neuroquantum"] (by decide) (by decide),
   (short_circuit_invariants criticalOracles ⟨"y", "y"⟩).2.1 (by decide),
   (short_circuit_invariants criticalOracles ⟨"y", "y"⟩).2.2 (by decide)⟩

/-- Oracles under which nothing matches and every search is empty. -/
def trivialOracles : Oracles :=
  { reSearch := fun _ _ => false,
    findTerms := fun _ => [],
    search_crossref := fun _ _ => [],
    search_pubmed := fun _ _ => [],
    search_arxiv := fun _ _ => [],
    searchComprehensive := fun _ _ => [] }

/-- Counterexample to C9 as stated: a full-pipeline result carries a
`partial_support_count` field, which is outside the claimed field set. -/
theorem result_field_set_counterexample :
    "partial_support_count" ∈
        (analyze_claim trivialOracles ⟨"a", "a"⟩).map Prod.fst ∧
      "partial_support_count" ∉
        ["original_claim", "normalized_claim", "classification",
         "confidence_score", "confidence_color", "drivers", "top_evidence",
         "fabricated_terms", "replication_status", "contradictions",
         "explanation_plain", "suggested_corrections", "search_actions",
         "domain_violations"] := by decide

/-- C9 (amended): every result of `analyze_claim` has one of exactly three
field sets, each the thirteen common fields extended, in source order: the
full pipeline adds `domain_violations` and `partial_support_count`, the
implausible short-circuit adds `domain_violations`, and the fabricated
short-circuit adds `fabricated_term_evidence`. -/
theorem result_field_sets (o : Oracles) (cd : ClaimData) :
    (analyze_claim o cd).map Prod.fst = normalKeys ∨
      (analyze_claim o cd).map Prod.fst = implausibleKeys ∨
      (analyze_claim o cd).map Prod.fst = fabricatedKeys := by
  cases hcrit : (check_claim_plausibility o.reSearch
    cd.original_claim).critical_violations
  · cases hdet : detect_fabricated_terms o cd.original_claim with
    | nil => exact Or.inl (analyze_claim_normal_case o cd hcrit hdet).2
    | cons f fs =>
      exact Or.inr (Or.inr
        (analyze_claim_fabricated_case o cd hcrit f fs hdet).2.2.2)
  · exact Or.inr (Or.inl (analyze_claim_critical_case o cd hcrit).2.2.2)

end Clairvox
